import Mathlib

set_option maxRecDepth 10000

/-!
Shallow embedding of `pyHydrabus/mmc.py` (class `MMC`, an MMC/eMMC bridge
client).  Bytes are natural numbers below 256; the byte-stream transport
(`self._hydrabus`) is modelled by the list of bytes it will deliver to
`read` together with the log of `write` calls; console prints and logger
output are collected in a `List String`; a Python `OverflowError` raised by
`int.to_bytes` is modelled by an `Option` returning `none`.
-/

/-- Python `int.from_bytes(bs, byteorder="little")`: little-endian decoding
of a byte string (the empty string decodes to 0). -/
def fromBytesLittle : List Nat → Nat
  | [] => 0
  | b :: rest => b + 256 * fromBytesLittle rest

/-- Fixed-width big-endian byte encoding of a natural number: the payload
produced by a successful Python call `n.to_bytes(len, byteorder="big")`. -/
def natToBytesBig : Nat → Nat → List Nat
  | _, 0 => []
  | n, len + 1 => natToBytesBig (n / 256) len ++ [n % 256]

/-- Python `n.to_bytes(len, byteorder="big")` on an int `n`: the big-endian
byte string of length `len` when `0 ≤ n < 256 ^ len`, and an `OverflowError`
(modelled as `none`) otherwise. -/
def toBytesBig (n : Int) (len : Nat) : Option (List Nat) :=
  if 0 ≤ n ∧ n < (256 : Int) ^ len then some (natToBytesBig n.toNat len)
  else none

/-- The byte-stream transport handle `self._hydrabus`: `input` is the byte
stream the device delivers to `read`, and `writes` records every `write`
call in order (one list entry per call, holding that call's bytes). -/
structure Transport where
  input : List Nat
  writes : List (List Nat)
deriving Repr, DecidableEq

/-- Transport primitive `self._hydrabus.write(bs)`: records one write call. -/
def Transport.hwrite (t : Transport) (bs : List Nat) : Transport :=
  { t with writes := t.writes ++ [bs] }

/-- Transport primitive `self._hydrabus.read(n)`: consumes and returns the
next `n` bytes of the input stream (the transport contract guarantees `n`
bytes arrive; a shorter result models a violated contract). -/
def Transport.hread (t : Transport) (n : Nat) : List Nat × Transport :=
  (t.input.take n, { t with input := t.input.drop n })

/-- The client state of class `MMC`: the in-memory configuration value
`self._config`.  Python keeps it as a nonnegative int. -/
structure MMC where
  config : Nat
deriving Repr, DecidableEq

/-- `MMC.__init__`: `self._config = self.__MMC_DEFAULT_CONFIG`, i.e. `0b0`. -/
def MMC.init : MMC := ⟨0b0⟩

/-- `MMC._configure_port`: `CMD = 0b10000000 | self._config`, write
`CMD.to_bytes(1, byteorder="big")`, read 1 byte; if it equals `b"\x01"`
return `True`, else log "Error setting config." and return `False`.
`self._config` is not modified (the function only reads it). -/
def MMC.configurePort (m : MMC) (t : Transport) :
    Option (Bool × Transport × List String) :=
  let CMD := 0b10000000 ||| m.config
  match toBytesBig (CMD : Int) 1 with
  | none => none
  | some bs =>
    let t := t.hwrite bs
    let (sb, t) := t.hread 1
    if sb = [0x01] then some (true, t, [])
    else some (false, t, ["Error setting config."])

/-- `MMC.cid` (property): write opcode `0b00000010`, read 1 status byte
(decoded little-endian and discarded), then read and return 16 bytes. -/
def MMC.cid (t : Transport) : List Nat × Transport :=
  let CMD := 0b00000010
  let t := t.hwrite (natToBytesBig CMD 1)
  let (sb, t) := t.hread 1
  let _status := fromBytesLittle sb
  t.hread 16

/-- `MMC.csd` (property): write opcode `0b00000011`, read 1 status byte
(decoded little-endian and discarded), then read and return 16 bytes. -/
def MMC.csd (t : Transport) : List Nat × Transport :=
  let CMD := 0b00000011
  let t := t.hwrite (natToBytesBig CMD 1)
  let (sb, t) := t.hread 1
  let _status := fromBytesLittle sb
  t.hread 16

/-- `MMC.ext_csd` (property): write opcode `0b00000110`, read 1 status byte
(decoded little-endian and discarded), then read and return 512 bytes. -/
def MMC.extCsd (t : Transport) : List Nat × Transport :=
  let CMD := 0b00000110
  let t := t.hwrite (natToBytesBig CMD 1)
  let (sb, t) := t.hread 1
  let _status := fromBytesLittle sb
  t.hread 512

/-- `MMC.bus_width` getter: `if self._config & 0b1:` return 4 else 1. -/
def MMC.busWidth (m : MMC) : Nat :=
  if m.config &&& 0b1 ≠ 0 then 4 else 1

/-- `MMC.bus_width` setter.  Python computes `self._config & ~(1)` in
arbitrary-precision two's complement; on the nonnegative `_config` this
clears bit 0, i.e. `Nat.ldiff self._config 1`.  `self._config | (1)` is
`Nat.lor`.  Any other value prints "Invalid value (1 or 4)" and leaves the
configuration unchanged.  In every case `self._configure_port()` is then
called once, its boolean result discarded. -/
def MMC.setBusWidth (m : MMC) (value : Int) (t : Transport) :
    Option (MMC × Transport × List String) :=
  let (m', msgs) :=
    if value = 1 then
      (({ config := Nat.ldiff m.config 1 } : MMC), ([] : List String))
    else if value = 4 then
      (({ config := m.config ||| 1 } : MMC), ([] : List String))
    else
      (m, ["Invalid value (1 or 4)"])
  match m'.configurePort t with
  | none => none
  | some (_, t', msgs') => some (m', t', msgs ++ msgs')

/-- `MMC.write(data, block_num)`: write opcode `0b00000101`, write
`block_num.to_bytes(4, byteorder="big")` (an `OverflowError` there, after
the opcode write, is `none`), write `data` as-is, read 1 status byte
little-endian, return `status == 1`. -/
def MMC.write (data : List Nat) (blockNum : Int) (t : Transport) :
    Option (Bool × Transport) :=
  let CMD := 0b00000101
  let t := t.hwrite (natToBytesBig CMD 1)
  match toBytesBig blockNum 4 with
  | none => none
  | some bn =>
    let t := t.hwrite bn
    let t := t.hwrite data
    let (sb, t) := t.hread 1
    let status := fromBytesLittle sb
    some (status == 1, t)

/-- `MMC.read(block_num)`: write opcode `0b00000100`, write
`block_num.to_bytes(4, byteorder="big")` (an `OverflowError` there, after
the opcode write, is `none`), read 1 status byte little-endian; if the
status equals 1 read and return 512 bytes, else return `b''`. -/
def MMC.read (blockNum : Int) (t : Transport) :
    Option (List Nat × Transport) :=
  let CMD := 0b00000100
  let t := t.hwrite (natToBytesBig CMD 1)
  match toBytesBig blockNum 4 with
  | none => none
  | some bn =>
    let t := t.hwrite bn
    let (sb, t) := t.hread 1
    let status := fromBytesLittle sb
    if status = 1 then some (t.hread 512)
    else some ([], t)

/-- `MMC.lock` (property): write opcode `0b00000111`, read 1 status byte
little-endian, return the raw status integer. -/
def MMC.lock (t : Transport) : Nat × Transport :=
  let CMD := 0b00000111
  let t := t.hwrite (natToBytesBig CMD 1)
  let (sb, t) := t.hread 1
  (fromBytesLittle sb, t)

/-- `MMC.unlock` (property): write opcode `0b00001000`, read 1 status byte
little-endian, return the raw status integer. -/
def MMC.unlock (t : Transport) : Nat × Transport :=
  let CMD := 0b00001000
  let t := t.hwrite (natToBytesBig CMD 1)
  let (sb, t) := t.hread 1
  (fromBytesLittle sb, t)

/-- `MMC.set_password` (property): write opcode `0b00001001`, read 1 status
byte little-endian, return the raw status integer. -/
def MMC.setPassword (t : Transport) : Nat × Transport :=
  let CMD := 0b00001001
  let t := t.hwrite (natToBytesBig CMD 1)
  let (sb, t) := t.hread 1
  (fromBytesLittle sb, t)

/-- `MMC.clear_password` (property): write opcode `0b00001010`, read 1
status byte little-endian, return the raw status integer. -/
def MMC.clearPassword (t : Transport) : Nat × Transport :=
  let CMD := 0b00001010
  let t := t.hwrite (natToBytesBig CMD 1)
  let (sb, t) := t.hread 1
  (fromBytesLittle sb, t)

/-- `MMC.fail_to_lock` (property): write opcode `0b00001011`, read 1 status
byte little-endian, return the raw status integer. -/
def MMC.failToLock (t : Transport) : Nat × Transport :=
  let CMD := 0b00001011
  let t := t.hwrite (natToBytesBig CMD 1)
  let (sb, t) := t.hread 1
  (fromBytesLittle sb, t)

/-- `MMC.is_lock` (property): write opcode `0b00001100`, read 1 status byte
little-endian; if `status & 0x0F` is nonzero print "CMD42 Error flag ON";
return `True` exactly when `status & 0xF0` is nonzero. -/
def MMC.isLock (t : Transport) : Bool × Transport × List String :=
  let MMC_IS_LOCK := 0xF0
  let MMC_LOCKE_ERROR := 0x0F
  let CMD := 0b00001100
  let t := t.hwrite (natToBytesBig CMD 1)
  let (sb, t) := t.hread 1
  let status := fromBytesLittle sb
  let msgs := if status &&& MMC_LOCKE_ERROR ≠ 0 then ["CMD42 Error flag ON"]
    else ([] : List String)
  let rv := if status &&& MMC_IS_LOCK ≠ 0 then true else false
  (rv, t, msgs)

/-- The mock device of spec §8 property 1: it stores the payload of each
successful write under its block number, acknowledges writes with status 1,
and echoes the stored block with status 1 on read. -/
structure Device where
  store : Nat → List Nat

/-- The mock device accepts a write of `data` to `blockNum`: it stores the
payload under the block number and produces the acknowledging status byte 1
for the client to read. -/
def Device.handleWrite (d : Device) (blockNum : Nat) (data : List Nat) :
    Device × List Nat :=
  (⟨fun k => if k = blockNum then data else d.store k⟩, [0x01])

/-- The mock device answers a read of `blockNum`: status byte 1 followed by
the stored block. -/
def Device.handleRead (d : Device) (blockNum : Nat) : List Nat :=
  0x01 :: d.store blockNum

/-- Client states reachable from construction: the `bus_width` setter is the
only operation of the class that assigns `self._config` after `__init__`. -/
inductive MMC.Reachable : MMC → Prop
  | init : MMC.Reachable MMC.init
  | step (m m' : MMC) (v : Int) (t t' : Transport) (msgs : List String) :
      MMC.Reachable m → m.setBusWidth v t = some (m', t', msgs) →
      MMC.Reachable m'

/-!
General lemmas about the embedded operations, shared by the claim theorems
below.
-/

theorem fromBytesLittle_singleton (s : Nat) : fromBytesLittle [s] = s := by
  simp [fromBytesLittle]

theorem toBytesBig_four_eq (n : Int) (hlo : 0 ≤ n) (hhi : n < 2 ^ 32) :
    toBytesBig n 4 = some (natToBytesBig n.toNat 4) := by
  unfold toBytesBig
  rw [if_pos]
  exact ⟨hlo, by norm_num at hhi ⊢; omega⟩

theorem natToBytesBig_one_eq (c : Nat) (hc : c < 256) :
    natToBytesBig c 1 = [c] := by
  simp [natToBytesBig, Nat.mod_eq_of_lt hc]

theorem lor_lt_256 (a b : Nat) (ha : a < 256) (hb : b < 256) :
    a ||| b < 256 := by
  have h : a ||| b = Nat.bitwise or a b := rfl
  have h2 := @Nat.bitwise_lt_two_pow a 8 b or (by omega) (by omega)
  rw [h]
  norm_num at h2 ⊢
  exact h2

theorem toBytesBig_one_eq (c : Nat) (hc : c < 256) :
    toBytesBig (c : Int) 1 = some [c] := by
  unfold toBytesBig
  rw [if_pos]
  · simp [natToBytesBig_one_eq c hc]
  · constructor
    · exact Int.ofNat_nonneg c
    · norm_num; omega

/-- Full behaviour of `MMC.read` on an in-range block number and a transport
whose next input byte is `s`. -/
theorem read_eq (bn : Int) (hlo : 0 ≤ bn) (hhi : bn < 2 ^ 32)
    (s : Nat) (rest : List Nat) (t : Transport) (ht : t.input = s :: rest) :
    MMC.read bn t =
      some (if s = 1 then rest.take 512 else [],
        { input := if s = 1 then rest.drop 512 else rest,
          writes := t.writes ++ [[0b00000100], natToBytesBig bn.toNat 4] }) := by
  unfold MMC.read
  rw [toBytesBig_four_eq bn hlo hhi]
  simp [Transport.hwrite, Transport.hread, ht, fromBytesLittle_singleton, natToBytesBig]
  by_cases h : s = 1 <;> simp [h]

/-- Full behaviour of `MMC.write` on an in-range block number and a transport
whose next input byte is `s`. -/
theorem write_eq (data : List Nat) (bn : Int)
    (hlo : 0 ≤ bn) (hhi : bn < 2 ^ 32)
    (s : Nat) (rest : List Nat) (t : Transport) (ht : t.input = s :: rest) :
    MMC.write data bn t =
      some (s == 1,
        { input := rest,
          writes := t.writes ++ [[0b00000101], natToBytesBig bn.toNat 4, data] }) := by
  unfold MMC.write
  rw [toBytesBig_four_eq bn hlo hhi]
  simp [Transport.hwrite, Transport.hread, ht, fromBytesLittle_singleton, natToBytesBig]

/-- Full behaviour of `MMC.configurePort` when the configuration value fits
in one byte and the transport's next input byte is `s`. -/
theorem configurePort_eq (m : MMC) (hc : m.config < 256)
    (s : Nat) (rest : List Nat) (t : Transport) (ht : t.input = s :: rest) :
    MMC.configurePort m t =
      some ((s == 1 : Bool),
        { input := rest, writes := t.writes ++ [[0b10000000 ||| m.config]] },
        if s = 1 then [] else ["Error setting config."]) := by
  have henc := toBytesBig_one_eq (0b10000000 ||| m.config)
    (lor_lt_256 0b10000000 m.config (by norm_num) hc)
  unfold MMC.configurePort
  simp [henc, Transport.hwrite, Transport.hread, ht]
  by_cases h : s = 1 <;> simp [h]

theorem lor_one_mod_two (c : Nat) : (c ||| 1) % 2 = 1 := by
  simp

theorem ldiff_one_mod_two (c : Nat) : Nat.ldiff c 1 % 2 = 0 := by
  have h := Nat.testBit_ldiff c 1 0
  rw [Nat.testBit_zero, Nat.testBit_zero, Nat.testBit_zero] at h
  simp at h
  omega

theorem ldiff_lt_256 (c : Nat) (hc : c < 256) : Nat.ldiff c 1 < 256 := by
  have h : Nat.ldiff c 1 = Nat.bitwise (fun a b => a && !b) c 1 := rfl
  have h2 := @Nat.bitwise_lt_two_pow c 8 1 (fun a b => a && !b) (by omega) (by omega)
  rw [h]
  norm_num at h2 ⊢
  exact h2

theorem lor_one_lt_256 (c : Nat) (hc : c < 256) : (c ||| 1) < 256 :=
  lor_lt_256 c 1 hc (by norm_num)

theorem busWidth_of_ldiff (c : Nat) : MMC.busWidth ⟨Nat.ldiff c 1⟩ = 1 := by
  unfold MMC.busWidth
  rw [if_neg]
  simp [Nat.and_one_is_mod, ldiff_one_mod_two]

theorem busWidth_of_lor (c : Nat) : MMC.busWidth ⟨c ||| 1⟩ = 4 := by
  unfold MMC.busWidth
  rw [if_pos]
  simp [Nat.and_one_is_mod, lor_one_mod_two]

/-- Behaviour of the `bus_width` setter on the accepted value 1. -/
theorem setBusWidth_one_eq (m : MMC) (hc : m.config < 256)
    (s : Nat) (rest : List Nat) (t : Transport) (ht : t.input = s :: rest) :
    MMC.setBusWidth m 1 t =
      some (⟨Nat.ldiff m.config 1⟩,
        { input := rest,
          writes := t.writes ++ [[0b10000000 ||| Nat.ldiff m.config 1]] },
        if s = 1 then [] else ["Error setting config."]) := by
  have hcp := configurePort_eq ⟨Nat.ldiff m.config 1⟩
    (ldiff_lt_256 _ hc) s rest t ht
  unfold MMC.setBusWidth
  simp [hcp]

/-- Behaviour of the `bus_width` setter on the accepted value 4. -/
theorem setBusWidth_four_eq (m : MMC) (hc : m.config < 256)
    (s : Nat) (rest : List Nat) (t : Transport) (ht : t.input = s :: rest) :
    MMC.setBusWidth m 4 t =
      some (⟨m.config ||| 1⟩,
        { input := rest,
          writes := t.writes ++ [[0b10000000 ||| (m.config ||| 1)]] },
        if s = 1 then [] else ["Error setting config."]) := by
  have hcp := configurePort_eq ⟨m.config ||| 1⟩
    (lor_one_lt_256 _ hc) s rest t ht
  unfold MMC.setBusWidth
  simp [hcp]

/-- Behaviour of the `bus_width` setter on any rejected value. -/
theorem setBusWidth_other_eq (m : MMC) (hc : m.config < 256) (v : Int)
    (h1 : v ≠ 1) (h4 : v ≠ 4)
    (s : Nat) (rest : List Nat) (t : Transport) (ht : t.input = s :: rest) :
    MMC.setBusWidth m v t =
      some (m,
        { input := rest, writes := t.writes ++ [[0b10000000 ||| m.config]] },
        "Invalid value (1 or 4)" ::
          (if s = 1 then [] else ["Error setting config."])) := by
  have hcp := configurePort_eq m hc s rest t ht
  unfold MMC.setBusWidth
  simp [hcp, h1, h4]

theorem ldiff_one_of_le_one (c : Nat) (hc : c ≤ 1) : Nat.ldiff c 1 = 0 := by
  interval_cases c <;>
    (apply Nat.eq_of_testBit_eq; intro i; simp [Nat.testBit_ldiff])

theorem lor_one_of_le_one (c : Nat) (hc : c ≤ 1) : c ||| 1 = 1 := by
  interval_cases c <;> decide

/-- Whatever the outcome of the device round trip, a successful `bus_width`
setter call leaves the configuration in one of three shapes: bit 0 cleared,
bit 0 set, or untouched. -/
theorem setBusWidth_config_shape (m m' : MMC) (v : Int) (t t' : Transport)
    (msgs : List String)
    (heq : MMC.setBusWidth m v t = some (m', t', msgs)) :
    m'.config = Nat.ldiff m.config 1 ∨ m'.config = (m.config ||| 1) ∨
      m'.config = m.config := by
  unfold MMC.setBusWidth at heq
  by_cases h1 : v = 1
  · subst h1
    simp at heq
    rcases hcp : MMC.configurePort ⟨Nat.ldiff m.config 1⟩ t with _ | ⟨b, t2, ms⟩
    · rw [hcp] at heq; simp at heq
    · rw [hcp] at heq
      simp at heq
      exact Or.inl (by rw [← heq.1])
  · by_cases h4 : v = 4
    · subst h4
      simp [h1] at heq
      rcases hcp : MMC.configurePort ⟨m.config ||| 1⟩ t with _ | ⟨b, t2, ms⟩
      · rw [hcp] at heq; simp at heq
      · rw [hcp] at heq
        simp at heq
        exact Or.inr (Or.inl (by rw [← heq.1]))
    · simp [h1, h4] at heq
      rcases hcp : MMC.configurePort m t with _ | ⟨b, t2, ms⟩
      · rw [hcp] at heq; simp at heq
      · rw [hcp] at heq
        simp at heq
        exact Or.inr (Or.inr (by rw [← heq.1]))

/-!
Claim theorems.  Each theorem settles one claim of the specification; each
one with hypotheses is followed by a witness instantiating it on concrete
input.
-/

/-- C1: for every block number, `read(block_num)` writes the opcode byte
`0b00000100` followed by the 4-byte big-endian encoding of the block
number, then reads exactly 1 status byte; if and only if that status byte
equals 1 it reads 512 further bytes from the transport and returns them,
and otherwise it returns the empty byte sequence without consuming any
payload bytes from the transport. -/
theorem read_payload_gated_on_status (bn : Int) (hlo : 0 ≤ bn)
    (hhi : bn < 2 ^ 32)
    (s : Nat) (rest : List Nat) (t : Transport) (ht : t.input = s :: rest) :
    MMC.read bn t =
      some (if s = 1 then rest.take 512 else [],
        { input := if s = 1 then rest.drop 512 else rest,
          writes := t.writes ++ [[0b00000100], natToBytesBig bn.toNat 4] }) :=
  read_eq bn hlo hhi s rest t ht

/-- Witness for C1: reading block 3 with status byte 1 and with status
byte 0. -/
theorem read_payload_gated_on_status_witness :
    MMC.read 3 { input := [1, 7], writes := [] } =
      some ([7], { input := [], writes := [[4], [0, 0, 0, 3]] }) :=
  read_payload_gated_on_status 3 (by decide) (by decide) 1 [7]
    { input := [1, 7], writes := [] } rfl

/-- C2: setting `bus_width` to 4 makes the getter return 4, setting it to 1
makes the getter return 1, and any other value leaves the configuration
bits (hence the getter) unchanged while printing the invalid-input message;
in all three cases `_configure_port` runs exactly once afterwards (one
config-command write on the transport and one status byte consumed). -/
theorem busWidth_setter_getter_roundtrip (m : MMC) (hc : m.config < 256)
    (s : Nat) (rest : List Nat) (t : Transport) (ht : t.input = s :: rest) :
    (∃ t1 msgs1, MMC.setBusWidth m 4 t = some (⟨m.config ||| 1⟩, t1, msgs1) ∧
      MMC.busWidth ⟨m.config ||| 1⟩ = 4 ∧
      t1.writes = t.writes ++ [[0b10000000 ||| (m.config ||| 1)]] ∧
      t1.input = rest) ∧
    (∃ t1 msgs1, MMC.setBusWidth m 1 t = some (⟨Nat.ldiff m.config 1⟩, t1, msgs1) ∧
      MMC.busWidth ⟨Nat.ldiff m.config 1⟩ = 1 ∧
      t1.writes = t.writes ++ [[0b10000000 ||| Nat.ldiff m.config 1]] ∧
      t1.input = rest) ∧
    (∀ v : Int, v ≠ 1 → v ≠ 4 →
      ∃ t1 msgs1, MMC.setBusWidth m v t = some (m, t1, msgs1) ∧
        "Invalid value (1 or 4)" ∈ msgs1 ∧
        t1.writes = t.writes ++ [[0b10000000 ||| m.config]] ∧
        t1.input = rest) := by
  refine ⟨⟨_, _, setBusWidth_four_eq m hc s rest t ht, busWidth_of_lor _, rfl, rfl⟩,
    ⟨_, _, setBusWidth_one_eq m hc s rest t ht, busWidth_of_ldiff _, rfl, rfl⟩,
    fun v h1 h4 =>
      ⟨_, _, setBusWidth_other_eq m hc v h1 h4 s rest t ht,
        List.mem_cons_self _ _, rfl, rfl⟩⟩

/-- Witness for C2: a client with configuration 0 and a transport whose
status byte is 1. -/
theorem busWidth_setter_getter_roundtrip_witness :
    (∃ t1 msgs1,
      MMC.setBusWidth ⟨0⟩ 4 { input := [1], writes := [] } =
        some (⟨(0 : Nat) ||| 1⟩, t1, msgs1) ∧
      MMC.busWidth ⟨(0 : Nat) ||| 1⟩ = 4 ∧
      t1.writes = [] ++ [[0b10000000 ||| ((0 : Nat) ||| 1)]] ∧
      t1.input = []) ∧
    (∃ t1 msgs1,
      MMC.setBusWidth ⟨0⟩ 1 { input := [1], writes := [] } =
        some (⟨Nat.ldiff 0 1⟩, t1, msgs1) ∧
      MMC.busWidth ⟨Nat.ldiff 0 1⟩ = 1 ∧
      t1.writes = [] ++ [[0b10000000 ||| Nat.ldiff 0 1]] ∧
      t1.input = []) ∧
    (∀ v : Int, v ≠ 1 → v ≠ 4 →
      ∃ t1 msgs1,
        MMC.setBusWidth ⟨0⟩ v { input := [1], writes := [] } =
          some (⟨0⟩, t1, msgs1) ∧
        "Invalid value (1 or 4)" ∈ msgs1 ∧
        t1.writes = [] ++ [[0b10000000 ||| (0 : Nat)]] ∧
        t1.input = []) :=
  busWidth_setter_getter_roundtrip ⟨0⟩ (by decide) 1 []
    { input := [1], writes := [] } rfl

/-- C3: for every configuration value `c` held by the client,
`_configure_port` writes exactly one byte equal to `0b10000000 ||| c`,
reads exactly 1 status byte, returns `true` if and only if that byte equals
`0x01` and `false` (with the failure logged) otherwise; the configuration
value is left unchanged in all cases: the model's `MMC` state is only read,
never rebuilt, and the written command mentions `m.config` itself. -/
theorem configurePort_command_and_ack (m : MMC) (hc : m.config < 256)
    (s : Nat) (rest : List Nat) (t : Transport) (ht : t.input = s :: rest) :
    MMC.configurePort m t =
      some ((s == 1 : Bool),
        { input := rest, writes := t.writes ++ [[0b10000000 ||| m.config]] },
        if s = 1 then [] else ["Error setting config."]) :=
  configurePort_eq m hc s rest t ht

/-- Witness for C3: configuration 1 (width bit set) sends `0b10000001` and
a status byte of 0 yields `false` plus the logged error. -/
theorem configurePort_command_and_ack_witness :
    MMC.configurePort ⟨1⟩ { input := [0], writes := [] } =
      some (false,
        { input := [], writes := [[0b10000001]] },
        ["Error setting config."]) :=
  configurePort_command_and_ack ⟨1⟩ (by decide) 0 []
    { input := [0], writes := [] } rfl

/-- C4: `is_lock` writes the opcode byte `0b00001100`, reads exactly 1
status byte, and returns `true` if and only if the high nibble
`status &&& 0xF0` is nonzero; a nonzero low nibble `status &&& 0x0F` only
emits the error notice and never changes the returned boolean or aborts
the call. -/
theorem isLock_high_nibble_decides (s : Nat) (rest : List Nat) (t : Transport)
    (ht : t.input = s :: rest) :
    MMC.isLock t =
      ((s &&& 0xF0 != 0 : Bool),
       { input := rest, writes := t.writes ++ [[0b00001100]] },
       if s &&& 0x0F ≠ 0 then ["CMD42 Error flag ON"] else []) := by
  unfold MMC.isLock
  simp [Transport.hwrite, Transport.hread, ht, fromBytesLittle_singleton,
    natToBytesBig]
  by_cases h : s &&& 240 = 0 <;> simp [h]

/-- Witness for C4: status byte `0xF3` has both nibbles set: the call
returns `true` and emits the error notice. -/
theorem isLock_high_nibble_decides_witness :
    MMC.isLock { input := [0xF3], writes := [] } =
      (true, { input := [], writes := [[0b00001100]] },
        ["CMD42 Error flag ON"]) :=
  isLock_high_nibble_decides 0xF3 [] { input := [0xF3], writes := [] } rfl

/-- C5: for every data and in-range block number, `write(data, block_num)`
performs exactly three transport writes in order, the opcode byte
`0b00000101`, the 4-byte big-endian block number, and the caller-supplied
data verbatim with no length check or padding, then reads exactly 1 status
byte and returns the boolean `status == 1`. -/
theorem write_frames_then_status (data : List Nat) (bn : Int)
    (hlo : 0 ≤ bn) (hhi : bn < 2 ^ 32)
    (s : Nat) (rest : List Nat) (t : Transport) (ht : t.input = s :: rest) :
    MMC.write data bn t =
      some (s == 1,
        { input := rest,
          writes := t.writes ++ [[0b00000101], natToBytesBig bn.toNat 4, data] }) :=
  write_eq data bn hlo hhi s rest t ht

/-- Witness for C5: a 2-byte payload (no length enforcement) to block 258
acknowledged with status 1. -/
theorem write_frames_then_status_witness :
    MMC.write [7, 7] 258 { input := [1], writes := [] } =
      some (true, { input := [], writes := [[5], [0, 0, 1, 2], [7, 7]] }) :=
  write_frames_then_status [7, 7] 258 (by decide) (by decide) 1 []
    { input := [1], writes := [] } rfl

/-- C6: `cid`, `csd` and `ext_csd` write their 1-byte opcodes `0b00000010`,
`0b00000011` and `0b00000110` respectively, read 1 status byte that is
discarded without validation, then read a fixed-size payload of 16, 16 and
512 bytes respectively and return it verbatim, whatever the status byte
`s` was. -/
theorem id_queries_return_fixed_payloads (s : Nat) (rest : List Nat)
    (t : Transport) (ht : t.input = s :: rest) :
    MMC.cid t = (rest.take 16,
      { input := rest.drop 16, writes := t.writes ++ [[0b00000010]] }) ∧
    MMC.csd t = (rest.take 16,
      { input := rest.drop 16, writes := t.writes ++ [[0b00000011]] }) ∧
    MMC.extCsd t = (rest.take 512,
      { input := rest.drop 512, writes := t.writes ++ [[0b00000110]] }) := by
  refine ⟨?_, ?_, ?_⟩ <;>
    simp [MMC.cid, MMC.csd, MMC.extCsd, Transport.hwrite, Transport.hread, ht,
      natToBytesBig]

/-- Witness for C6: a failing status byte 9 does not stop any of the three
queries from returning the following payload bytes. -/
theorem id_queries_return_fixed_payloads_witness :
    MMC.cid { input := [9, 1, 2], writes := [] } =
      ([1, 2], { input := [], writes := [[0b00000010]] }) ∧
    MMC.csd { input := [9, 1, 2], writes := [] } =
      ([1, 2], { input := [], writes := [[0b00000011]] }) ∧
    MMC.extCsd { input := [9, 1, 2], writes := [] } =
      ([1, 2], { input := [], writes := [[0b00000110]] }) :=
  id_queries_return_fixed_payloads 9 [1, 2]
    { input := [9, 1, 2], writes := [] } rfl

/-- C7, counterexample: the claim quantifies over every integer block
number, but Python's `int.to_bytes(4, byteorder="big")` raises
`OverflowError` for `block_num = 2 ^ 32` (and for `-1`), so `read` and
`write` do fail locally on account of the block number's value. -/
theorem blockNum_overflow_fails_locally :
    MMC.read ((2 : Int) ^ 32) { input := [0x01], writes := [] } = none ∧
    MMC.write [] ((2 : Int) ^ 32) { input := [0x01], writes := [] } = none ∧
    MMC.read (-1) { input := [0x01], writes := [] } = none := by
  refine ⟨by decide, by decide, by decide⟩

/-- C7, amended: for every block number in the unsigned 32-bit range the
client performs no local range validation, the call never fails locally,
and the 4-byte big-endian encoding of the block number is transmitted;
outside that range the byte-encoding step itself raises. -/
theorem blockNum_in_range_no_local_validation (bn : Int)
    (hlo : 0 ≤ bn) (hhi : bn < 2 ^ 32) (t : Transport) (data : List Nat) :
    (∃ r, MMC.read bn t = some r ∧
      r.2.writes = t.writes ++ [[0b00000100], natToBytesBig bn.toNat 4]) ∧
    (∃ r, MMC.write data bn t = some r ∧
      r.2.writes = t.writes ++ [[0b00000101], natToBytesBig bn.toNat 4, data]) := by
  constructor
  · unfold MMC.read
    rw [toBytesBig_four_eq bn hlo hhi]
    simp [Transport.hwrite, Transport.hread, natToBytesBig]
    by_cases h : fromBytesLittle (t.input.take 1) = 1 <;> simp [h] <;>
      exact ⟨_, _, ⟨rfl, rfl⟩, rfl⟩
  · unfold MMC.write
    rw [toBytesBig_four_eq bn hlo hhi]
    simp [Transport.hwrite, Transport.hread, natToBytesBig]

/-- Witness for the amended C7: block number 5 on an empty input stream. -/
theorem blockNum_in_range_no_local_validation_witness :
    (∃ r, MMC.read 5 { input := [], writes := [] } = some r ∧
      r.2.writes = [] ++ [[0b00000100], natToBytesBig (Int.toNat 5) 4]) ∧
    (∃ r, MMC.write [9] 5 { input := [], writes := [] } = some r ∧
      r.2.writes = [] ++ [[0b00000101], natToBytesBig (Int.toNat 5) 4, [9]]) :=
  blockNum_in_range_no_local_validation 5 (by decide) (by decide)
    { input := [], writes := [] } [9]

/-- C8: `lock`, `unlock`, `set_password`, `clear_password` and
`fail_to_lock` each write exactly their 1-byte opcode (`0b00000111`,
`0b00001000`, `0b00001001`, `0b00001010`, `0b00001011` respectively), read
exactly 1 status byte, and return that raw status byte as an integer. -/
theorem lock_family_returns_raw_status (s : Nat) (rest : List Nat)
    (t : Transport) (ht : t.input = s :: rest) :
    MMC.lock t = (s, { input := rest, writes := t.writes ++ [[0b00000111]] }) ∧
    MMC.unlock t = (s, { input := rest, writes := t.writes ++ [[0b00001000]] }) ∧
    MMC.setPassword t =
      (s, { input := rest, writes := t.writes ++ [[0b00001001]] }) ∧
    MMC.clearPassword t =
      (s, { input := rest, writes := t.writes ++ [[0b00001010]] }) ∧
    MMC.failToLock t =
      (s, { input := rest, writes := t.writes ++ [[0b00001011]] }) := by
  refine ⟨?_, ?_, ?_, ?_, ?_⟩ <;>
    simp [MMC.lock, MMC.unlock, MMC.setPassword, MMC.clearPassword,
      MMC.failToLock, Transport.hwrite, Transport.hread, ht,
      fromBytesLittle_singleton, natToBytesBig]

/-- Witness for C8: status byte `0xAB` is returned raw by all five
commands, not normalized to a boolean. -/
theorem lock_family_returns_raw_status_witness :
    MMC.lock { input := [0xAB], writes := [] } =
      (0xAB, { input := [], writes := [[0b00000111]] }) ∧
    MMC.unlock { input := [0xAB], writes := [] } =
      (0xAB, { input := [], writes := [[0b00001000]] }) ∧
    MMC.setPassword { input := [0xAB], writes := [] } =
      (0xAB, { input := [], writes := [[0b00001001]] }) ∧
    MMC.clearPassword { input := [0xAB], writes := [] } =
      (0xAB, { input := [], writes := [[0b00001010]] }) ∧
    MMC.failToLock { input := [0xAB], writes := [] } =
      (0xAB, { input := [], writes := [[0b00001011]] }) :=
  lock_family_returns_raw_status 0xAB [] { input := [0xAB], writes := [] } rfl

/-- C9: against the mock device that stores the payload of each successful
write under its block number, acknowledges writes with status 1, and
echoes the stored block with status 1 on read, `write(data, n)` followed by
`read(n)` returns exactly `data` whenever `data` is 512 bytes long. -/
theorem write_then_read_roundtrip_on_mock (d : Device) (n : Int)
    (hlo : 0 ≤ n) (hhi : n < 2 ^ 32) (data : List Nat)
    (hlen : data.length = 512) :
    (MMC.write data n ⟨(d.handleWrite n.toNat data).2, []⟩).map Prod.fst
      = some true ∧
    (MMC.read n ⟨((d.handleWrite n.toNat data).1.handleRead n.toNat), []⟩).map
        Prod.fst
      = some data := by
  constructor
  · have h := write_eq data n hlo hhi 1 []
      ⟨(d.handleWrite n.toNat data).2, []⟩ rfl
    rw [h]
    simp
  · have hstore : ((d.handleWrite n.toNat data).1.handleRead n.toNat)
        = 1 :: data := by
      simp [Device.handleRead, Device.handleWrite]
    have h := read_eq n hlo hhi 1 data
      ⟨((d.handleWrite n.toNat data).1.handleRead n.toNat), []⟩ (by rw [hstore])
    rw [h]
    simp
    exact Nat.le_of_eq hlen

/-- Witness for C9: the all-zero 512-byte block round-trips through block 0
of an initially empty mock device. -/
theorem write_then_read_roundtrip_on_mock_witness :
    (MMC.write (List.replicate 512 0) 0
        ⟨(Device.handleWrite ⟨fun _ => []⟩ (Int.toNat 0)
            (List.replicate 512 0)).2, []⟩).map Prod.fst
      = some true ∧
    (MMC.read 0
        ⟨((Device.handleWrite ⟨fun _ => []⟩ (Int.toNat 0)
            (List.replicate 512 0)).1.handleRead (Int.toNat 0)), []⟩).map
        Prod.fst
      = some (List.replicate 512 0) :=
  write_then_read_roundtrip_on_mock ⟨fun _ => []⟩ 0 (by decide) (by decide)
    (List.replicate 512 0) (by simp)

/-- C10: a freshly constructed client has configuration value 0 (so
`bus_width` reads 1), and since the `bus_width` setter, the only operation
that modifies the configuration, only ever clears bit 0, sets bit 0, or
leaves the value alone, the configuration value is 0 or 1 — and the
`bus_width` getter returns 1 or 4 — in every reachable state. -/
theorem config_invariant_reachable (m : MMC) (h : MMC.Reachable m) :
    MMC.init.config = 0 ∧ MMC.init.busWidth = 1 ∧
    (m.config = 0 ∨ m.config = 1) ∧ (m.busWidth = 1 ∨ m.busWidth = 4) := by
  have key : m.config = 0 ∨ m.config = 1 := by
    induction h with
    | init => exact Or.inl rfl
    | step m0 m1 v t t' msgs hr heq ih =>
      rcases setBusWidth_config_shape m0 m1 v t t' msgs heq with hs | hs | hs
      · rw [hs, ldiff_one_of_le_one m0.config (by omega)]
        exact Or.inl rfl
      · rw [hs, lor_one_of_le_one m0.config (by omega)]
        exact Or.inr rfl
      · rw [hs]; exact ih
  refine ⟨rfl, by decide, key, ?_⟩
  rcases key with hk | hk
  · left; simp [MMC.busWidth, hk]
  · right; simp [MMC.busWidth, hk]

/-- Witness for C10: the invariant holds at the freshly constructed
client. -/
theorem config_invariant_reachable_witness :
    MMC.init.config = 0 ∧ MMC.init.busWidth = 1 ∧
    (MMC.init.config = 0 ∨ MMC.init.config = 1) ∧
    (MMC.init.busWidth = 1 ∨ MMC.init.busWidth = 4) :=
  config_invariant_reachable MMC.init MMC.Reachable.init
